import Mathlib

/-!
Verification of the RC Aircraft Control Surface Servo Torque Estimator
(`servo_torque_estimator.py`).

The program is a single-pass numeric calculator: it acquires flight
conditions and per-surface geometry (with defaults), derives the dynamic
pressure, and for each of the three control surfaces computes a trapezoidal
area, a mean chord, and the hinge torque in N·m and kg·cm.

Numbers are modelled as exact rationals (`ℚ`); the Python floats are IEEE
binary64, and all properties below are stated by the specification with
tolerances (1e-9, 1e-6) far above binary64 rounding error at these
magnitudes, so exact rational arithmetic is the faithful idealisation.
Interactive input is modelled by an inductive `UserInput` matching the three
cases the code distinguishes: empty line, a line that parses as the numeric
type, and a line whose parse raises `ValueError`.
-/

namespace ServoTorqueEstimator

/-- Conversion factor from Newton-meters (N.m) to kilogram-centimeters
(kg-cm): the literal constant `NM_TO_KGCM = 10.1972` from the source. -/
def NM_TO_KGCM : ℚ := 101972 / 10000

/-- One line of user input, as `get_user_input` case-splits on it:
the empty string, a string parsing to a value of the numeric type, or a
string whose conversion raises `ValueError`. -/
inductive UserInput where
  | empty : UserInput
  | parsed : ℚ → UserInput
  | unparseable : UserInput
deriving DecidableEq

/-- What `get_user_input` produces: the returned numeric value, together
with the warning printed in the `except ValueError` branch (the warning
names the default value it falls back to), if any. -/
structure InputResult where
  value : ℚ
  warning : Option ℚ
deriving DecidableEq

/-- Embedding of `get_user_input(prompt_text, default_value, input_type)`:
empty input returns the default; a parsed value is returned as given; an
unparseable value returns the default and prints a warning naming it. -/
def get_user_input (prompt_text : String) (default_value : ℚ) :
    UserInput → InputResult
  | .empty => { value := default_value, warning := none }
  | .parsed v => { value := v, warning := none }
  | .unparseable => { value := default_value, warning := some default_value }

/-- Embedding of `calculate_trapezoid_area(root_chord, tip_chord, span)`. -/
def calculate_trapezoid_area (root_chord tip_chord span : ℚ) : ℚ :=
  (root_chord + tip_chord) * span / 2

/-- Embedding of `calculate_mean_aerodynamic_chord(root_chord, tip_chord)`. -/
def calculate_mean_aerodynamic_chord (root_chord tip_chord : ℚ) : ℚ :=
  (root_chord + tip_chord) / 2

/-- Embedding of `calculate_hinge_torque(dynamic_pressure, surface_area,
mean_chord, hinge_coeff)`: returns the pair `(torque_nm, torque_kg_cm)`. -/
def calculate_hinge_torque
    (dynamic_pressure surface_area mean_chord hinge_coeff : ℚ) : ℚ × ℚ :=
  let torque_nm := dynamic_pressure * surface_area * mean_chord * |hinge_coeff|
  let torque_kg_cm := torque_nm * NM_TO_KGCM
  (torque_nm, torque_kg_cm)

/-- A surface's entry in the `surface_defaults` dictionary. -/
structure SurfaceDefaults where
  ch : ℚ
  span : ℚ
  root_chord : ℚ
  tip_chord : ℚ
  note : String
deriving DecidableEq

/-- The four interactive inputs consumed by `process_surface`. -/
structure SurfaceInputs where
  ch : UserInput
  span : UserInput
  root_chord : UserInput
  tip_chord : UserInput
deriving DecidableEq

/-- The dictionary `process_surface` returns:
`{"name": ..., "ch": ..., "torque_nm": ..., "torque_kgcm": ...}`. -/
structure SurfaceResult where
  name : String
  ch : ℚ
  torque_nm : ℚ
  torque_kgcm : ℚ
deriving DecidableEq

/-- Embedding of `process_surface(name, defaults, dynamic_pressure)`:
acquires the hinge coefficient, span, root chord and tip chord (each with
its default), computes area, mean chord and torque, and assembles the
result record. -/
def process_surface (name : String) (defaults : SurfaceDefaults)
    (dynamic_pressure : ℚ) (inputs : SurfaceInputs) : SurfaceResult :=
  let hinge_coeff :=
    (get_user_input (name ++ " Hinge Moment Coefficient (Ch)")
      defaults.ch inputs.ch).value
  let span :=
    (get_user_input (name ++ " span in meters") defaults.span inputs.span).value
  let root_chord :=
    (get_user_input (name ++ " root chord in meters")
      defaults.root_chord inputs.root_chord).value
  let tip_chord :=
    (get_user_input (name ++ " tip chord in meters")
      defaults.tip_chord inputs.tip_chord).value
  let area := calculate_trapezoid_area root_chord tip_chord span
  let mean_chord := calculate_mean_aerodynamic_chord root_chord tip_chord
  let torques := calculate_hinge_torque dynamic_pressure area mean_chord hinge_coeff
  { name := name, ch := hinge_coeff,
    torque_nm := torques.1, torque_kgcm := torques.2 }

/-- Aileron entry of `surface_defaults`. -/
def surface_defaults_Aileron : SurfaceDefaults :=
  { ch := -15/100, span := 924/1000, root_chord := 110/1000,
    tip_chord := 50/1000, note := "(Single Aileron)" }

/-- Elevator entry of `surface_defaults`. -/
def surface_defaults_Elevator : SurfaceDefaults :=
  { ch := -10/100, span := 318/1000, root_chord := 225/1000,
    tip_chord := 225/1000, note := "(One Half of the Elevator)" }

/-- Rudder entry of `surface_defaults`. -/
def surface_defaults_Rudder : SurfaceDefaults :=
  { ch := -10/100, span := 308/1000, root_chord := 200/1000,
    tip_chord := 150/1000, note := "" }

/-- The full sequence of interactive inputs one run consumes, in the order
the program asks for them. -/
structure RunInputs where
  air_density : UserInput
  velocity : UserInput
  aileron : SurfaceInputs
  elevator : SurfaceInputs
  rudder : SurfaceInputs
deriving DecidableEq

/-- Embedding of `run_servo_torque_estimation()`: acquires air density
(default 1.225) and velocity (default 18.0), computes the dynamic pressure
`0.5 * air_density * velocity ** 2`, then processes the three surfaces in
the insertion order of the `surface_defaults` dictionary (Aileron,
Elevator, Rudder) and collects the results in that order. -/
def run_servo_torque_estimation (inputs : RunInputs) : List SurfaceResult :=
  let air_density :=
    (get_user_input ("Air density (rho) in kg/m^3") (1225/1000)
      inputs.air_density).value
  let velocity :=
    (get_user_input ("Aircraft velocity (V) in m/s") 18 inputs.velocity).value
  let dynamic_pressure := (1/2) * air_density * velocity ^ 2
  [ process_surface ("Aileron") surface_defaults_Aileron
      dynamic_pressure inputs.aileron,
    process_surface ("Elevator") surface_defaults_Elevator
      dynamic_pressure inputs.elevator,
    process_surface ("Rudder") surface_defaults_Rudder
      dynamic_pressure inputs.rudder ]

/-- Empty input for all four prompts of one surface. -/
def empty_surface_inputs : SurfaceInputs :=
  { ch := .empty, span := .empty, root_chord := .empty, tip_chord := .empty }

/-- A run in which the user accepts every default by entering nothing. -/
def default_run_inputs : RunInputs :=
  { air_density := .empty, velocity := .empty,
    aileron := empty_surface_inputs, elevator := empty_surface_inputs,
    rudder := empty_surface_inputs }

/-- Claim C1: for every dynamic pressure `q`, surface area `A`, mean chord `c`
and hinge coefficient `h`, `calculate_hinge_torque q A c h` returns the pair
`(torque_nm, torque_kg_cm)` with `torque_nm = q * A * c * |h|` and
`torque_kg_cm = torque_nm * 10.1972`, where `10.1972` is the literal
conversion constant `NM_TO_KGCM`. -/
theorem calculate_hinge_torque_spec (q A c h : ℚ) :
    calculate_hinge_torque q A c h =
        (q * A * c * |h|, q * A * c * |h| * NM_TO_KGCM) ∧
      NM_TO_KGCM = 101972 / 10000 :=
  ⟨rfl, rfl⟩

/-- Claim C2: for every prompt and default, `get_user_input` returns the
default on empty input, returns the default and emits a warning naming that
default on unparseable input, and on every possible input returns a value of
the numeric type (it is a total function into `InputResult`, mirroring the
code in which the only exception, `ValueError`, is caught). -/
theorem get_user_input_spec (prompt_text : String) (default_value : ℚ) :
    get_user_input prompt_text default_value .empty =
        { value := default_value, warning := none } ∧
      get_user_input prompt_text default_value .unparseable =
        { value := default_value, warning := some default_value } ∧
      ∀ v : ℚ, get_user_input prompt_text default_value (.parsed v) =
        { value := v, warning := none } :=
  ⟨rfl, rfl, fun _ => rfl⟩

/-- Claim C3: sign invariance of the torque: for every `q`, `A`, `c` and
every hinge coefficient `h`, `calculate_hinge_torque q A c h` equals
`calculate_hinge_torque q A c (-h)` in both components. -/
theorem calculate_hinge_torque_sign_invariance (q A c h : ℚ) :
    calculate_hinge_torque q A c h = calculate_hinge_torque q A c (-h) := by
  simp [calculate_hinge_torque, abs_neg]

/-- Claim C4, counterexample: in the all-defaults run the Aileron torque is
exactly `torque_nm = 0.176033088` and `torque_kgcm = 1.7950446049536`, which
are not approximately `0.17586` and `1.7936` as claimed: they differ from the
claimed values by more than one unit in the fourth decimal place, the
precision at which the program itself reports them (`:.4f` for N·m). -/
theorem default_run_aileron_torque_counterexample :
    ((run_servo_torque_estimation default_run_inputs).head?.map
        SurfaceResult.torque_nm = some (176033088 / 10 ^ 9)) ∧
      ((run_servo_torque_estimation default_run_inputs).head?.map
        SurfaceResult.torque_kgcm = some (17950446049536 / 10 ^ 13)) ∧
      ¬ |(176033088 / 10 ^ 9 : ℚ) - 17586 / 10 ^ 5| ≤ 1 / 10 ^ 4 ∧
      ¬ |(17950446049536 / 10 ^ 13 : ℚ) - 17936 / 10 ^ 4| ≤ 1 / 10 ^ 3 := by
  refine ⟨?_, ?_, ?_, ?_⟩
  · simp [run_servo_torque_estimation, process_surface, get_user_input,
      default_run_inputs, empty_surface_inputs, surface_defaults_Aileron,
      calculate_trapezoid_area, calculate_mean_aerodynamic_chord,
      calculate_hinge_torque, NM_TO_KGCM]
    rw [show |(-15 / 100 : ℚ)| = 15 / 100 by
      rw [abs_of_neg (by norm_num : (-15 / 100 : ℚ) < 0)]
      norm_num]
    norm_num
  · simp [run_servo_torque_estimation, process_surface, get_user_input,
      default_run_inputs, empty_surface_inputs, surface_defaults_Aileron,
      calculate_trapezoid_area, calculate_mean_aerodynamic_chord,
      calculate_hinge_torque, NM_TO_KGCM]
    rw [show |(-15 / 100 : ℚ)| = 15 / 100 by
      rw [abs_of_neg (by norm_num : (-15 / 100 : ℚ) < 0)]
      norm_num]
    norm_num
  · rw [abs_of_pos (by norm_num)]
    norm_num
  · rw [abs_of_pos (by norm_num)]
    norm_num

/-- Claim C4, amended: with air density `1.225` and velocity `18.0` the
dynamic pressure is `198.45`; with the Aileron defaults the computed area is
`0.07392`, the mean chord is `0.080`, `torque_nm` is exactly `0.176033088`
(≈ 0.17603) and `torque_kgcm` is exactly `1.7950446049536` (≈ 1.79504). -/
theorem default_run_scenario_amended :
    (1 / 2 : ℚ) * (1225 / 1000) * 18 ^ 2 = 19845 / 100 ∧
      calculate_trapezoid_area (110 / 1000) (50 / 1000) (924 / 1000) =
        7392 / 100000 ∧
      calculate_mean_aerodynamic_chord (110 / 1000) (50 / 1000) = 8 / 100 ∧
      (run_servo_torque_estimation default_run_inputs).head? =
        some { name := "Aileron", ch := -15 / 100,
               torque_nm := 176033088 / 10 ^ 9,
               torque_kgcm := 17950446049536 / 10 ^ 13 } := by
  refine ⟨by norm_num, by norm_num [calculate_trapezoid_area],
    by norm_num [calculate_mean_aerodynamic_chord], ?_⟩
  simp [run_servo_torque_estimation, process_surface, get_user_input,
    default_run_inputs, empty_surface_inputs, surface_defaults_Aileron,
    calculate_trapezoid_area, calculate_mean_aerodynamic_chord,
    calculate_hinge_torque, NM_TO_KGCM, SurfaceResult.mk.injEq]
  rw [show |(-15 / 100 : ℚ)| = 15 / 100 by
    rw [abs_of_neg (by norm_num : (-15 / 100 : ℚ) < 0)]
    norm_num]
  norm_num

/-- Claim C5: for all non-negative `root_chord`, `tip_chord` and `span`,
`calculate_trapezoid_area root_chord tip_chord span` equals
`(root_chord + tip_chord) * span / 2`. -/
theorem calculate_trapezoid_area_spec (root_chord tip_chord span : ℚ)
    (hr : 0 ≤ root_chord) (ht : 0 ≤ tip_chord) (hs : 0 ≤ span) :
    calculate_trapezoid_area root_chord tip_chord span =
      (root_chord + tip_chord) * span / 2 :=
  rfl

/-- Witness for claim C5 at the Aileron default geometry. -/
theorem calculate_trapezoid_area_spec_witness :
    (0 : ℚ) ≤ 110 / 1000 ∧ (0 : ℚ) ≤ 50 / 1000 ∧ (0 : ℚ) ≤ 924 / 1000 ∧
      calculate_trapezoid_area (110 / 1000) (50 / 1000) (924 / 1000) =
        ((110 : ℚ) / 1000 + 50 / 1000) * (924 / 1000) / 2 :=
  ⟨by norm_num, by norm_num, by norm_num,
    calculate_trapezoid_area_spec (110 / 1000) (50 / 1000) (924 / 1000)
      (by norm_num) (by norm_num) (by norm_num)⟩

/-- Claim C6: for all `root_chord` and `tip_chord`,
`calculate_mean_aerodynamic_chord root_chord tip_chord` equals
`(root_chord + tip_chord) / 2`. -/
theorem calculate_mean_aerodynamic_chord_spec (root_chord tip_chord : ℚ) :
    calculate_mean_aerodynamic_chord root_chord tip_chord =
      (root_chord + tip_chord) / 2 :=
  rfl

/-- Claim C7: the two geometric functions are total with no failure modes:
for every rational input, including negative chords or span, each returns
the formula's value (in the embedding they are total functions, mirroring
the exception-free Python arithmetic), and on negative geometry they return
a (meaningless) negative area rather than failing, as the concrete negated
Aileron geometry shows. -/
theorem geometric_functions_total :
    (∀ root_chord tip_chord span : ℚ,
        calculate_trapezoid_area root_chord tip_chord span =
          (root_chord + tip_chord) * span / 2) ∧
      (∀ root_chord tip_chord : ℚ,
        calculate_mean_aerodynamic_chord root_chord tip_chord =
          (root_chord + tip_chord) / 2) ∧
      calculate_trapezoid_area (-(110 / 1000)) (-(50 / 1000)) (924 / 1000) =
        -(7392 / 100000) := by
  refine ⟨fun _ _ _ => rfl, fun _ _ => rfl, ?_⟩
  norm_num [calculate_trapezoid_area]

/-- Claim C8: for every run, i.e. every sequence of user inputs, the
surfaces are processed and reported in exactly the fixed order
Aileron, Elevator, Rudder. -/
theorem run_surface_order (inputs : RunInputs) :
    (run_servo_torque_estimation inputs).map SurfaceResult.name =
      ["Aileron", "Elevator", "Rudder"] :=
  rfl

/-- Claim C9: `process_surface` stores the hinge coefficient exactly as
acquired from the input source, sign included, for every surface and input;
in particular the default run reports the Aileron coefficient as `-0.15`
even though the torque computation uses only its absolute value. -/
theorem process_surface_ch_sign_preserved :
    (∀ (name : String) (defaults : SurfaceDefaults) (dynamic_pressure : ℚ)
        (inputs : SurfaceInputs),
        (process_surface name defaults dynamic_pressure inputs).ch =
          (get_user_input (name ++ " Hinge Moment Coefficient (Ch)")
            defaults.ch inputs.ch).value) ∧
      (run_servo_torque_estimation default_run_inputs).head?.map
        SurfaceResult.ch = some (-(15 / 100)) :=
  ⟨fun _ _ _ _ => rfl, by
    simp [run_servo_torque_estimation, process_surface, get_user_input,
      default_run_inputs, empty_surface_inputs, surface_defaults_Aileron]
    norm_num⟩

/-- Claim C10: for every non-negative dynamic pressure, surface area and
mean chord, and every hinge coefficient of either sign, both components
returned by `calculate_hinge_torque` are non-negative. -/
theorem calculate_hinge_torque_nonneg (q A c h : ℚ)
    (hq : 0 ≤ q) (hA : 0 ≤ A) (hc : 0 ≤ c) :
    0 ≤ (calculate_hinge_torque q A c h).1 ∧
      0 ≤ (calculate_hinge_torque q A c h).2 := by
  have h1 : 0 ≤ q * A * c * |h| :=
    mul_nonneg (mul_nonneg (mul_nonneg hq hA) hc) (abs_nonneg h)
  have h2 : (0 : ℚ) ≤ NM_TO_KGCM := by norm_num [NM_TO_KGCM]
  exact ⟨h1, mul_nonneg h1 h2⟩

/-- Witness for claim C10 at the default Aileron run values, with the
negative default hinge coefficient. -/
theorem calculate_hinge_torque_nonneg_witness :
    (0 : ℚ) ≤ 19845 / 100 ∧ (0 : ℚ) ≤ 7392 / 100000 ∧ (0 : ℚ) ≤ 8 / 100 ∧
      (0 ≤ (calculate_hinge_torque (19845 / 100) (7392 / 100000) (8 / 100)
          (-(15 / 100))).1 ∧
        0 ≤ (calculate_hinge_torque (19845 / 100) (7392 / 100000) (8 / 100)
          (-(15 / 100))).2) :=
  ⟨by norm_num, by norm_num, by norm_num,
    calculate_hinge_torque_nonneg (19845 / 100) (7392 / 100000) (8 / 100)
      (-(15 / 100)) (by norm_num) (by norm_num) (by norm_num)⟩

end ServoTorqueEstimator
